import Mathlib

/-!
Shallow embedding of the RBAC authorization engine and JWT authentication
lifecycle of the Express + Prisma backend template, together with theorems
settling the specification claims about it.

The database (Prisma/MySQL) is modelled as an explicit record of rows;
`findUnique`/`findFirst` become `List.find?`, `updateMany`-style writes become
`List.map`, and thrown `Error` objects carrying an ad-hoc `statusCode`
property become an explicit `AppError` value threaded through `Except`.
Every service operation returns the database state it left behind together
with its result, so frame conditions ("no mutation happened") are provable
rather than assumed.
-/

/-- HTTP status codes from `src/constants/index.ts` (`HTTP_STATUS`). -/
def HTTP_STATUS.BAD_REQUEST : Nat := 400

/-- HTTP 401 from `src/constants/index.ts`. -/
def HTTP_STATUS.UNAUTHORIZED : Nat := 401

/-- HTTP 403 from `src/constants/index.ts`. -/
def HTTP_STATUS.FORBIDDEN : Nat := 403

/-- HTTP 404 from `src/constants/index.ts`. -/
def HTTP_STATUS.NOT_FOUND : Nat := 404

/-- HTTP 409 from `src/constants/index.ts`. -/
def HTTP_STATUS.CONFLICT : Nat := 409

/-- A thrown `Error` with a bolted-on `statusCode` property, the error shape
used throughout the services (`Error & \x7b statusCode?: number \x7d`). -/
structure AppError where
  message : String
  statusCode : Nat
deriving Repr, DecidableEq

/-- Row of the Prisma `Role` model: id, unique name, description, active flag. -/
structure Role where
  id : Nat
  name : String
  description : Option String
  isActive : Bool
deriving Repr, DecidableEq

/-- Row of the Prisma `Permission` model. -/
structure Permission where
  id : Nat
  name : String
  isActive : Bool
deriving Repr, DecidableEq

/-- Row of the Prisma `RolePermission` join model (role, permission) pair. -/
structure RolePermission where
  roleId : Nat
  permissionId : Nat
deriving Repr, DecidableEq

/-- JWT payload shape from `src/types` as signed by `jwt.config`:
`\x7b userId, email, role \x7d` (the `iat`/`exp` claims live on the token). -/
structure JwtPayload where
  userId : Nat
  email : String
  role : String
deriving Repr, DecidableEq

/-- Model of a signed JWT string as handled by the `jsonwebtoken` library:
its decoded payload, its `exp` claim (epoch seconds), whether it parses as a
well-formed token at all, and the key it was signed with.  JWT serialization
is injective in these components, so equality of `JwtToken` values mirrors
string equality of the serialized tokens (two tokens signed over the same
payload with the same key and the same expiry second serialize identically —
and only those do). -/
structure JwtToken where
  payload : JwtPayload
  exp : Nat
  wellFormed : Bool
  signedWith : String
deriving Repr, DecidableEq

/-- Row of the Prisma `User` model, with the auth-relevant columns:
password hash, FK to `Role`, the single stored refresh token (a serialized
JWT, modelled by the `JwtToken` it decodes to), and the password-reset token
plus its expiry timestamp. -/
structure User where
  id : Nat
  email : String
  password : String
  name : Option String
  isActive : Bool
  roleId : Option Nat
  refreshToken : Option JwtToken
  passwordResetToken : Option String
  passwordResetExpires : Option Nat
deriving Repr, DecidableEq

/-- The database state seen by the repositories: the four tables plus the
autoincrement counter for `User.id`. -/
structure DB where
  users : List User
  roles : List Role
  permissions : List Permission
  rolePermissions : List RolePermission
  nextUserId : Nat
deriving Repr, DecidableEq

/-- `ROLE_NAMES.ADMIN` from `src/models/Role.model.ts`. -/
def ROLE_NAMES.ADMIN : String := "admin"

/-- `ROLE_NAMES.USER` from `src/models/Role.model.ts`. -/
def ROLE_NAMES.USER : String := "user"

/-- `RoleRepository.hasPermission(roleId, permissionName)`: a
`rolePermission.findFirst` for the given role joined to a permission row
matching `name == permissionName` and `isActive == true`.  Note the filter
never touches the *role's* own `isActive` flag. -/
def RoleRepository.hasPermission (s : DB) (roleId : Nat) (permissionName : String) : Bool :=
  s.rolePermissions.any fun rp =>
    rp.roleId == roleId &&
      (match s.permissions.find? (fun p => p.id == rp.permissionId) with
       | some p => p.name == permissionName && p.isActive
       | none => false)

/-- The joined role record of a user, exactly as
`db.user.findUnique(\x7b where: \x7b id \x7d, include: \x7b role: true \x7d \x7d)`
materialises it: `none` when the user is missing, has a null `roleId`, or the
`roleId` matches no role row. -/
def userRoleOf (s : DB) (uid : Nat) : Option Role :=
  (s.users.find? (fun u => u.id == uid)).bind fun u =>
    u.roleId.bind fun rid => s.roles.find? (fun r => r.id == rid)

/-- `RoleService.userHasPermission(userId, permissionName)`: loads the user
with its role relation (`userRoleOf`); the `if (!user || !user.role) return
false` guard makes both a missing user and a null role resolve `false`,
otherwise it defers to `RoleRepository.hasPermission` on the role's id. -/
def RoleService.userHasPermission (s : DB) (userId : Nat) (permissionName : String) : Bool :=
  match userRoleOf s userId with
  | none => false
  | some role => RoleRepository.hasPermission s role.id permissionName

/-- Decision core of the `requireAnyPermission` middleware
(`permissions.middleware.ts`): `Promise.all` of per-name
`userHasPermission` checks followed by `.some((has) => has === true)`. -/
def userHasAnyPermission (s : DB) (userId : Nat) (permissionNames : List String) : Bool :=
  (permissionNames.map (fun p => RoleService.userHasPermission s userId p)).any
    (fun has => has == true)

/-- Decision core of the `requireAllPermissions` middleware
(`permissions.middleware.ts`): per-name checks followed by
`.every((has) => has === true)`. -/
def userHasAllPermissions (s : DB) (userId : Nat) (permissionNames : List String) : Bool :=
  (permissionNames.map (fun p => RoleService.userHasPermission s userId p)).all
    (fun has => has == true)

/-- `RoleRepository.delete(id)`: soft delete — a `role.update` setting
`isActive: false` on the matching row and nothing else. -/
def RoleRepository.delete (s : DB) (id : Nat) : DB :=
  { s with
    roles := s.roles.map fun r =>
      if r.id == id then { r with isActive := false } else r }

/-- `RoleService.deleteRole(id)`: `getRoleById` (404 when absent), then the
system-role guard (400 for names `admin`/`user`), then the repository's soft
delete.  The returned state is the database after the call; failure paths
leave it untouched. -/
def RoleService.deleteRole (s : DB) (id : Nat) : DB × Except AppError Unit :=
  match s.roles.find? (fun r => r.id == id) with
  | none => (s, Except.error ⟨"Role not found", HTTP_STATUS.NOT_FOUND⟩)
  | some role =>
    if role.name == ROLE_NAMES.ADMIN || role.name == ROLE_NAMES.USER then
      (s, Except.error ⟨"Cannot delete system roles", HTTP_STATUS.BAD_REQUEST⟩)
    else
      (RoleRepository.delete s id, Except.ok ())

/-- Result shape of `validatePasswordStrength` in `src/utils/password.util.ts`:
`\x7b isValid: boolean; error?: string \x7d`. -/
structure PasswordValidation where
  isValid : Bool
  error : Option String
deriving Repr, DecidableEq

/-- The regex `/[A-Z]/.test(password)` of `validatePasswordStrength`. -/
def hasUppercaseChar (password : String) : Bool :=
  password.data.any fun c => 'A' ≤ c && c ≤ 'Z'

/-- The regex `/[a-z]/.test(password)` of `validatePasswordStrength`. -/
def hasLowercaseChar (password : String) : Bool :=
  password.data.any fun c => 'a' ≤ c && c ≤ 'z'

/-- The regex `/[0-9]/.test(password)` of `validatePasswordStrength`. -/
def hasDigitChar (password : String) : Bool :=
  password.data.any fun c => '0' ≤ c && c ≤ '9'

/-- The character class of the special-character regex in
`validatePasswordStrength` (braces written as hex escapes). -/
def specialCharacters : List Char :=
  ['!', '@', '#', '$', '%', '^', '&', '*', '(', ')', ',', '.', '?', '"',
   ':', '\x7b', '\x7d', '|', '<', '>']

/-- The special-character regex test of `validatePasswordStrength`. -/
def hasSpecialChar (password : String) : Bool :=
  password.data.any fun c => specialCharacters.contains c

/-- `validatePasswordStrength(password, minLength = 8)` from
`src/utils/password.util.ts`: an ordered chain of five checks, each returning
immediately with its own message; `\x7b isValid: true \x7d` only after all pass.
The `minLength` default argument is passed explicitly here. -/
def validatePasswordStrength (password : String) (minLength : Nat) : PasswordValidation :=
  if password.length < minLength then
    ⟨false, some ("Password must be at least " ++ toString minLength ++ " characters long")⟩
  else if !hasUppercaseChar password then
    ⟨false, some "Password must contain at least one uppercase letter"⟩
  else if !hasLowercaseChar password then
    ⟨false, some "Password must contain at least one lowercase letter"⟩
  else if !hasDigitChar password then
    ⟨false, some "Password must contain at least one number"⟩
  else if !hasSpecialChar password then
    ⟨false, some "Password must contain at least one special character"⟩
  else
    ⟨true, none⟩

/-- First failing rule of an ordered `(passes, message)` rule list — the
spec-side reading of "returns the first failing rule's message". -/
def firstFailingRule : List (Bool × String) → Option String
  | [] => none
  | (ok, msg) :: rest => if ok then firstFailingRule rest else some msg

/-- The five ordered strength rules as the spec words them: minimum length,
uppercase, lowercase, digit, special character, each paired with its message. -/
def strengthRules (password : String) (minLength : Nat) : List (Bool × String) :=
  [ (!(password.length < minLength),
      "Password must be at least " ++ toString minLength ++ " characters long"),
    (hasUppercaseChar password, "Password must contain at least one uppercase letter"),
    (hasLowercaseChar password, "Password must contain at least one lowercase letter"),
    (hasDigitChar password, "Password must contain at least one number"),
    (hasSpecialChar password, "Password must contain at least one special character") ]

/-- `validateStrength` as the spec describes it: report the first failing
rule's message, valid exactly when no rule fails. -/
def validateStrengthSpec (password : String) (minLength : Nat) : PasswordValidation :=
  match firstFailingRule (strengthRules password minLength) with
  | none => ⟨true, none⟩
  | some msg => ⟨false, some msg⟩

/-- Outcome of `jwt.verify` inside the `jsonwebtoken` library: shape and
signature are checked first (`JsonWebTokenError`), then the `exp` claim
against the current time (`TokenExpiredError`). -/
inductive JwtVerifyOutcome where
  | ok (payload : JwtPayload)
  | expired
  | invalid
deriving Repr, DecidableEq

/-- `jwt.verify(token, secret)` at clock time `now` (epoch seconds). -/
def jwtVerify (secret : String) (now : Nat) (t : JwtToken) : JwtVerifyOutcome :=
  if !t.wellFormed then JwtVerifyOutcome.invalid
  else if t.signedWith ≠ secret then JwtVerifyOutcome.invalid
  else if t.exp ≤ now then JwtVerifyOutcome.expired
  else JwtVerifyOutcome.ok t.payload

/-- `verifyToken(token)` from the JWT config module: wraps `jwt.verify`,
rethrowing `TokenExpiredError` as `Error("Token expired")` and
`JsonWebTokenError` as `Error("Invalid token")` — two distinguishable
failure messages. -/
def verifyToken (secret : String) (now : Nat) (t : JwtToken) : Except String JwtPayload :=
  match jwtVerify secret now t with
  | JwtVerifyOutcome.ok payload => Except.ok payload
  | JwtVerifyOutcome.expired => Except.error "Token expired"
  | JwtVerifyOutcome.invalid => Except.error "Invalid token"

/-- `ACCESS_TOKEN_EXPIRES_IN` default of 15 minutes, in seconds. -/
def ACCESS_TOKEN_TTL : Nat := 15 * 60

/-- `REFRESH_TOKEN_EXPIRES_IN` default of 7 days, in seconds. -/
def REFRESH_TOKEN_TTL : Nat := 7 * 24 * 60 * 60

/-- The `\x7b accessToken, refreshToken \x7d` pair returned by `generateTokens`. -/
structure TokenPair where
  accessToken : JwtToken
  refreshToken : JwtToken
deriving Repr, DecidableEq

/-- `generateTokens(payload)` from the JWT config module: signs an access
token and a refresh token over the same payload with the configured TTLs,
at clock time `now`. -/
def generateTokens (secret : String) (now : Nat) (payload : JwtPayload) : TokenPair :=
  ⟨⟨payload, now + ACCESS_TOKEN_TTL, true, secret⟩,
   ⟨payload, now + REFRESH_TOKEN_TTL, true, secret⟩⟩

/-- `AuthRepository.updateRefreshToken(userId, refreshToken)`: single-row
update of the stored refresh token.  Refresh tokens live in the database as
serialized JWT strings; the model stores the `JwtToken` value they decode to,
so the `user.refreshToken !== input.refreshToken` string comparison becomes
value equality. -/
def setRefreshTok (userId : Nat) (tok : Option JwtToken) (u : User) : User :=
  if u.id == userId then { u with refreshToken := tok } else u

/-- The row update performed by `updateRefreshToken`, as a function on user
rows: the matching row gets the new token, every other row is untouched. -/
def AuthRepository.updateRefreshToken (s : DB) (userId : Nat) (tok : Option JwtToken) : DB :=
  { s with users := s.users.map (setRefreshTok userId tok) }

/-- `AuthRepository.updatePasswordResetToken(userId, token, expiresAt)`. -/
def AuthRepository.updatePasswordResetToken (s : DB) (userId : Nat)
    (tok : Option String) (expiresAt : Option Nat) : DB :=
  { s with
    users := s.users.map fun u =>
      if u.id == userId then
        { u with passwordResetToken := tok, passwordResetExpires := expiresAt }
      else u }

/-- `AuthRepository.updatePassword(userId, hashedPassword)`: stores the new
hash and clears both reset-token columns in the same update. -/
def AuthRepository.updatePassword (s : DB) (userId : Nat) (hashedPassword : String) : DB :=
  { s with
    users := s.users.map fun u =>
      if u.id == userId then
        { u with password := hashedPassword,
                 passwordResetToken := none,
                 passwordResetExpires := none }
      else u }

/-- `AuthRepository.create(\x7b email, password, name, roleId \x7d)`: inserts a
user with `roleId: data.roleId || 2` — JavaScript `||`, so an absent (or
zero) role id silently becomes the hardcoded numeric default `2`. -/
def AuthRepository.create (s : DB) (email password : String) (name : Option String)
    (roleId : Option Nat) : User × DB :=
  let rid : Nat :=
    match roleId with
    | some r => if r == 0 then 2 else r
    | none => 2
  let u : User :=
    { id := s.nextUserId, email := email, password := password, name := name,
      isActive := true, roleId := some rid, refreshToken := none,
      passwordResetToken := none, passwordResetExpires := none }
  (u, { s with users := s.users ++ [u], nextUserId := s.nextUserId + 1 })

/-- The `user.role?.name || 'user'` pattern used by the auth service after
loading a user together with its role relation: the joined role's name, or
the literal `"user"` when the relation is null — or when the name is the
empty string, since JavaScript `||` treats `""` as falsy. -/
def roleNameOrDefault (s : DB) (u : User) : String :=
  match u.roleId.bind (fun rid => s.roles.find? (fun r => r.id == rid)) with
  | some r => if r.name == "" then "user" else r.name
  | none => "user"

/-- The `\x7b user, accessToken, refreshToken \x7d` response of register/login. -/
structure AuthUserView where
  id : Nat
  email : String
  name : Option String
  role : String
deriving Repr, DecidableEq

/-- `AuthResponse` from `src/models/Auth.model.ts`. -/
structure AuthResponse where
  user : AuthUserView
  accessToken : JwtToken
  refreshToken : JwtToken
deriving Repr, DecidableEq

/-- `passwordValidation.error || 'Contraseña inválida'`. -/
def validationMessage (v : PasswordValidation) : String :=
  match v.error with
  | some m => if m == "" then "Contraseña inválida" else m
  | none => "Contraseña inválida"

/-- `AuthService.register(input)`: email presence check (the source's
`!input.email || !input.email.trim()` — true exactly when the email is
empty or all-whitespace, modelled as an all-whitespace character test),
then strength check,
uniqueness check, `hashPassword`, `AuthRepository.create` (no explicit role,
so the repository's numeric default applies), a re-fetch of the user with its
role relation, token issuance, and persistence of the refresh token.  The
password hasher and the clock are passed in as the external collaborators
they are. -/
def AuthService.register (hash : String → String) (secret : String) (now : Nat)
    (s : DB) (email password : String) (name : Option String) :
    DB × Except AppError AuthResponse :=
  if email.data.all (fun c => c.isWhitespace) then
    (s, Except.error ⟨"El email es requerido", HTTP_STATUS.BAD_REQUEST⟩)
  else
    let validation := validatePasswordStrength password 8
    if !validation.isValid then
      (s, Except.error ⟨validationMessage validation, HTTP_STATUS.BAD_REQUEST⟩)
    else if s.users.any (fun u => u.email == email) then
      (s, Except.error ⟨"Ya existe un usuario con este email", HTTP_STATUS.CONFLICT⟩)
    else
      let created := AuthRepository.create s email (hash password) name none
      let user := created.1
      let s1 := created.2
      let roleName :=
        match s1.users.find? (fun u => u.id == user.id) with
        | some uu => roleNameOrDefault s1 uu
        | none => "user"
      let tokens := generateTokens secret now ⟨user.id, user.email, roleName⟩
      let s2 := AuthRepository.updateRefreshToken s1 user.id (some tokens.refreshToken)
      (s2, Except.ok ⟨⟨user.id, user.email, user.name, roleName⟩,
                      tokens.accessToken, tokens.refreshToken⟩)

/-- `AuthService.refreshToken(input)`: presence check, `verifyToken` (any
verification failure becomes a 401), `findById` on the token's `userId`
(404 when missing, 403 when inactive), the stored-token comparison (401 on
mismatch), then rotation: a fresh pair is generated and its refresh token
persisted.  `input` is `none` when the request carried no token. -/
def AuthService.refreshToken (secret : String) (now : Nat) (s : DB)
    (input : Option JwtToken) : DB × Except AppError TokenPair :=
  match input with
  | none => (s, Except.error ⟨"El token de refresco es requerido", HTTP_STATUS.BAD_REQUEST⟩)
  | some rt =>
    match verifyToken secret now rt with
    | Except.error _ =>
      (s, Except.error ⟨"Token de refresco inválido o expirado", HTTP_STATUS.UNAUTHORIZED⟩)
    | Except.ok payload =>
      match s.users.find? (fun u => u.id == payload.userId) with
      | none => (s, Except.error ⟨"Usuario no encontrado", HTTP_STATUS.NOT_FOUND⟩)
      | some user =>
        if !user.isActive then
          (s, Except.error ⟨"La cuenta está desactivada", HTTP_STATUS.FORBIDDEN⟩)
        else if user.refreshToken ≠ some rt then
          (s, Except.error ⟨"Token de refresco inválido", HTTP_STATUS.UNAUTHORIZED⟩)
        else
          let roleName := roleNameOrDefault s user
          let tokens := generateTokens secret now ⟨user.id, user.email, roleName⟩
          (AuthRepository.updateRefreshToken s user.id (some tokens.refreshToken),
           Except.ok tokens)

/-- `AuthService.forgotPassword(input)`: email presence check, then a lookup
by email.  Whether or not a user exists, the success value is the same
literal message; when one exists, a reset token with a one-hour expiry is
persisted first.  The freshly generated random token and the clock come in
as parameters. -/
def AuthService.forgotPassword (s : DB) (email : String)
    (resetToken : String) (now : Nat) : DB × Except AppError String :=
  if email == "" then
    (s, Except.error ⟨"El email es requerido", HTTP_STATUS.BAD_REQUEST⟩)
  else
    match s.users.find? (fun u => u.email == email) with
    | none =>
      (s, Except.ok "Si existe una cuenta con ese email, se ha enviado un enlace para restablecer la contraseña.")
    | some user =>
      (AuthRepository.updatePasswordResetToken s user.id (some resetToken)
        (some (now + 3600)),
       Except.ok "Si existe una cuenta con ese email, se ha enviado un enlace para restablecer la contraseña.")

/-- `AuthService.changePassword(userId, input)`: presence check on both
passwords, strength check on the new one, the double lookup
`findByEmailWithPassword((await findById(userId))?.email || '')`, the
current-password verification, then `updatePassword` (which also clears the
reset-token columns) followed by clearing the stored refresh token.  The
hasher and the password comparator are the external collaborators. -/
def AuthService.changePassword (hash : String → String)
    (cmp : String → String → Bool) (s : DB) (userId : Nat)
    (currentPassword newPassword : String) : DB × Except AppError String :=
  if currentPassword == "" || newPassword == "" then
    (s, Except.error ⟨"La contraseña actual y la nueva contraseña son requeridas",
                      HTTP_STATUS.BAD_REQUEST⟩)
  else
    let validation := validatePasswordStrength newPassword 8
    if !validation.isValid then
      (s, Except.error ⟨validationMessage validation, HTTP_STATUS.BAD_REQUEST⟩)
    else
      let em :=
        match s.users.find? (fun u => u.id == userId) with
        | some u => u.email
        | none => ""
      match s.users.find? (fun u => u.email == em) with
      | none => (s, Except.error ⟨"Usuario no encontrado", HTTP_STATUS.NOT_FOUND⟩)
      | some user =>
        if !cmp currentPassword user.password then
          (s, Except.error ⟨"La contraseña actual es incorrecta", HTTP_STATUS.UNAUTHORIZED⟩)
        else
          let s1 := AuthRepository.updatePassword s user.id (hash newPassword)
          let s2 := AuthRepository.updateRefreshToken s1 user.id none
          (s2, Except.ok "La contraseña ha sido cambiada exitosamente")

/-! ### Helper lemmas -/

/-- `find?` commutes with a map that does not change whether the predicate
holds (used for single-row updates, which preserve every row's key). -/
theorem find_map_eq_of_pred_invariant {α : Type} (l : List α) (q : α → Bool)
    (f : α → α) (hf : ∀ a, q (f a) = q a) :
    (l.map f).find? q = (l.find? q).map f := by
  induction l with
  | nil => rfl
  | cons a t ih =>
    by_cases h : q a = true
    · rw [List.find?_cons_of_pos _ h, List.map_cons,
        List.find?_cons_of_pos _ (by rw [hf]; exact h), Option.map_some']
    · rw [List.find?_cons_of_neg _ h, List.map_cons,
        List.find?_cons_of_neg _ (by rw [hf]; exact h)]
      exact ih

/-- `find?` skips a prefix on which the predicate is everywhere false
(used for the freshly appended row of an insert). -/
theorem find_append_of_all_neg {α : Type} (l₁ l₂ : List α) (q : α → Bool)
    (h : ∀ a ∈ l₁, q a = false) : (l₁ ++ l₂).find? q = l₂.find? q := by
  induction l₁ with
  | nil => rfl
  | cons a t ih =>
    rw [List.cons_append,
      List.find?_cons_of_neg _ (by simp [h a (List.mem_cons_self a t)])]
    exact ih fun x hx => h x (List.mem_cons_of_mem a hx)

/-- Looking up a freshly appended row by its key finds exactly that row when
no earlier row shares the key. -/
theorem find_append_singleton (l : List User) (v : User) (vid : Nat)
    (hv : v.id = vid) (h : ∀ a ∈ l, a.id ≠ vid) :
    (l ++ [v]).find? (fun x => x.id == vid) = some v := by
  rw [find_append_of_all_neg l [v] (fun x => x.id == vid)
    (fun a ha => by simp [h a ha])]
  simp [List.find?, hv]

/-- `setRefreshTok` never changes a row's id. -/
theorem setRefreshTok_id (userId : Nat) (tok : Option JwtToken) (u : User) :
    (setRefreshTok userId tok u).id = u.id := by
  unfold setRefreshTok
  by_cases h : (u.id == userId) = true <;> simp [h]

/-- Inverting a successful `verifyToken`: the payload is the token's own,
and the token was well-formed, signed with the right key, and not yet
expired at the verification time. -/
theorem verifyToken_ok_inversion (secret : String) (now : Nat) (t : JwtToken)
    (p : JwtPayload) (h : verifyToken secret now t = Except.ok p) :
    p = t.payload ∧ t.wellFormed = true ∧ t.signedWith = secret ∧ now < t.exp := by
  unfold verifyToken jwtVerify at h
  by_cases h1 : t.wellFormed
  · by_cases h2 : t.signedWith = secret
    · by_cases h3 : t.exp ≤ now
      · simp [h1, h2, h3] at h
      · simp [h1, h2, h3] at h
        exact ⟨h.symm, h1, h2, by omega⟩
    · simp [h1, h2] at h
  · simp [h1] at h

/-! ### Claim theorems -/

/-- Claim C9: `validatePasswordStrength` checks the five rules in the fixed
order (length at least 8, uppercase, lowercase, digit, special character),
returns the first failing rule's message, and is valid exactly when all
five rules hold. -/
theorem validateStrength_first_failure (password : String) :
    validatePasswordStrength password 8 = validateStrengthSpec password 8 ∧
    ((validatePasswordStrength password 8).isValid = true ↔
      (8 ≤ password.length ∧ hasUppercaseChar password = true ∧
       hasLowercaseChar password = true ∧ hasDigitChar password = true ∧
       hasSpecialChar password = true)) := by
  unfold validatePasswordStrength validateStrengthSpec strengthRules
  by_cases h1 : password.length < 8 <;>
    by_cases h2 : hasUppercaseChar password = true <;>
      by_cases h3 : hasLowercaseChar password = true <;>
        by_cases h4 : hasDigitChar password = true <;>
          by_cases h5 : hasSpecialChar password = true <;>
            (simp [firstFailingRule, h1, h2, h3, h4, h5]; try omega)

/-- Claim C7: `verifyToken` fails with the `Token expired` kind exactly for
a well-formed, correctly signed token past its expiry, with the `Invalid
token` kind exactly for a shape or signature failure, and the two kinds are
distinct. -/
theorem verifyToken_error_kinds (secret : String) (now : Nat) (t : JwtToken) :
    (verifyToken secret now t = Except.error "Token expired" ↔
      (t.wellFormed = true ∧ t.signedWith = secret ∧ t.exp ≤ now)) ∧
    (verifyToken secret now t = Except.error "Invalid token" ↔
      (t.wellFormed = false ∨ t.signedWith ≠ secret)) ∧
    ("Token expired" : String) ≠ "Invalid token" := by
  unfold verifyToken jwtVerify
  refine ⟨?_, ?_, by decide⟩ <;>
    by_cases h1 : t.wellFormed <;>
      by_cases h2 : t.signedWith = secret <;>
        by_cases h3 : t.exp ≤ now <;>
          simp [h1, h2, h3]

/-- Claim C3: `deleteRole` on a role named `admin` or `user` always fails
with the 400 `Cannot delete system roles` error and leaves the database —
in particular the role — untouched, whoever calls it. -/
theorem deleteRole_system_roles (s : DB) (rid : Nat) (r : Role)
    (hfind : s.roles.find? (fun x => x.id == rid) = some r)
    (hname : r.name = "admin" ∨ r.name = "user") :
    RoleService.deleteRole s rid =
      (s, Except.error ⟨"Cannot delete system roles", HTTP_STATUS.BAD_REQUEST⟩) := by
  unfold RoleService.deleteRole
  rw [hfind]
  rcases hname with h | h <;> simp [h, ROLE_NAMES.ADMIN, ROLE_NAMES.USER]

/-- Witness for C3 on a concrete database holding the seeded `admin` role. -/
theorem deleteRole_system_roles_witness :
    RoleService.deleteRole ⟨[], [⟨1, "admin", none, true⟩], [], [], 1⟩ 1 =
      (⟨[], [⟨1, "admin", none, true⟩], [], [], 1⟩,
       Except.error ⟨"Cannot delete system roles", HTTP_STATUS.BAD_REQUEST⟩) :=
  deleteRole_system_roles ⟨[], [⟨1, "admin", none, true⟩], [], [], 1⟩ 1
    ⟨1, "admin", none, true⟩ (by decide) (Or.inl rfl)

/-- Claim C6: `changePassword` with a new password failing the strength
policy fails with a 400 error before performing any mutation — the returned
database state is exactly the input state, so the stored password hash,
refresh token and reset-token columns are all unchanged. -/
theorem changePassword_weak_password_no_mutation (hash : String → String)
    (cmp : String → String → Bool) (s : DB) (userId : Nat)
    (currentPassword newPassword : String)
    (hweak : (validatePasswordStrength newPassword 8).isValid = false) :
    ∃ e, AuthService.changePassword hash cmp s userId currentPassword newPassword =
        (s, Except.error e) ∧ e.statusCode = HTTP_STATUS.BAD_REQUEST := by
  unfold AuthService.changePassword
  by_cases h0 : (currentPassword == "" || newPassword == "") = true
  · refine ⟨⟨"La contraseña actual y la nueva contraseña son requeridas",
      HTTP_STATUS.BAD_REQUEST⟩, ?_, rfl⟩
    simp [h0]
  · refine ⟨⟨validationMessage (validatePasswordStrength newPassword 8),
      HTTP_STATUS.BAD_REQUEST⟩, ?_, rfl⟩
    simp [h0, hweak]

/-- Witness for C6: the weak new password `"abc"` is rejected with a 400
and the concrete one-user database comes back untouched. -/
theorem changePassword_weak_password_no_mutation_witness :
    ∃ e, AuthService.changePassword (fun x => x) (fun a b => a == b)
        ⟨[⟨1, "a@x.com", "H", none, true, none, none, none, none⟩], [], [], [], 2⟩
        1 "Old1!pass" "abc" =
      (⟨[⟨1, "a@x.com", "H", none, true, none, none, none, none⟩], [], [], [], 2⟩,
       Except.error e) ∧ e.statusCode = HTTP_STATUS.BAD_REQUEST :=
  changePassword_weak_password_no_mutation (fun x => x) (fun a b => a == b)
    ⟨[⟨1, "a@x.com", "H", none, true, none, none, none, none⟩], [], [], [], 2⟩
    1 "Old1!pass" "abc" (by decide)

/-- Claim C5: the success responses of `forgotPassword` for an email that
belongs to an existing user and one that belongs to no user carry the same
message value — the response does not depend on account existence. -/
theorem forgotPassword_uniform_message (s : DB) (e1 e2 tok1 tok2 : String)
    (t1 t2 : Nat) (u : User)
    (h1 : s.users.find? (fun x => x.email == e1) = some u)
    (h2 : s.users.find? (fun x => x.email == e2) = none)
    (hne1 : e1 ≠ "") (hne2 : e2 ≠ "") :
    ∃ m s1 s2,
      AuthService.forgotPassword s e1 tok1 t1 = (s1, Except.ok m) ∧
      AuthService.forgotPassword s e2 tok2 t2 = (s2, Except.ok m) := by
  refine ⟨"Si existe una cuenta con ese email, se ha enviado un enlace para restablecer la contraseña.",
    AuthRepository.updatePasswordResetToken s u.id (some tok1) (some (t1 + 3600)),
    s, ?_, ?_⟩ <;>
    unfold AuthService.forgotPassword
  · simp [hne1, h1]
  · simp [hne2, h2]

/-- Witness for C5 on a concrete database: `a@x.com` exists, `b@x.com`
does not, and both calls succeed with the same message. -/
theorem forgotPassword_uniform_message_witness :
    ∃ m s1 s2,
      AuthService.forgotPassword
        ⟨[⟨1, "a@x.com", "H", none, true, none, none, none, none⟩], [], [], [], 2⟩
        "a@x.com" "tok1" 10 = (s1, Except.ok m) ∧
      AuthService.forgotPassword
        ⟨[⟨1, "a@x.com", "H", none, true, none, none, none, none⟩], [], [], [], 2⟩
        "b@x.com" "tok2" 20 = (s2, Except.ok m) :=
  forgotPassword_uniform_message
    ⟨[⟨1, "a@x.com", "H", none, true, none, none, none, none⟩], [], [], [], 2⟩
    "a@x.com" "b@x.com" "tok1" "tok2" 10 20
    ⟨1, "a@x.com", "H", none, true, none, none, none, none⟩
    (by decide) (by decide) (by decide) (by decide)

/-- Database refuting the inactive-role clause of claim C1: user 1 holds
role 10, which is inactive (`isActive = false`), yet an active permission
`reports.view` is joined to that role. -/
def inactiveRoleState : DB :=
  ⟨[⟨1, "u@x.com", "H", none, true, some 10, none, none, none⟩],
   [⟨10, "ops", none, false⟩],
   [⟨5, "reports.view", true⟩],
   [⟨10, 5⟩], 2⟩

/-- Counterexample to claim C1: the permission resolution never consults the
role's `isActive` flag, so a user whose role is inactive still resolves
`true` — the claimed fail-closed behaviour for inactive roles does not hold. -/
theorem userHasPermission_inactive_role_counterexample :
    (userRoleOf inactiveRoleState 1).map Role.isActive = some false ∧
    RoleService.userHasPermission inactiveRoleState 1 "reports.view" = true := by
  decide

/-- When every permission bearing the looked-up name is inactive (or none
exists), `RoleRepository.hasPermission` is `false` for every role id. -/
theorem hasPermission_all_inactive (s : DB) (rid : Nat) (pname : String)
    (h : ∀ perm ∈ s.permissions, perm.name = pname → perm.isActive = false) :
    RoleRepository.hasPermission s rid pname = false := by
  unfold RoleRepository.hasPermission
  rw [List.any_eq_false]
  intro rp _
  cases hp : s.permissions.find? (fun p => p.id == rp.permissionId) with
  | none => simp [hp]
  | some q =>
    by_cases hqn : q.name = pname
    · have hq := h q (List.mem_of_find?_eq_some hp) hqn
      simp [hp, hqn, hq]
    · simp [hp, hqn]

/-- Claim C1 as amended: `userHasPermission` is `false` whenever the user
has no (resolvable) role, or every permission named `p` is inactive — in
particular when no permission named `p` exists.  The inactive-role clause of
the original claim is dropped: the code never checks the role's own flag. -/
theorem userHasPermission_fail_closed (s : DB) (uid : Nat) (pname : String)
    (h : userRoleOf s uid = none ∨
         ∀ perm ∈ s.permissions, perm.name = pname → perm.isActive = false) :
    RoleService.userHasPermission s uid pname = false := by
  unfold RoleService.userHasPermission
  rcases h with h | h
  · rw [h]
  · cases hr : userRoleOf s uid with
    | none => rfl
    | some role => exact hasPermission_all_inactive s role.id pname h

/-- Witness for C1 as amended: a user with no role at all resolves `false`. -/
theorem userHasPermission_fail_closed_witness :
    RoleService.userHasPermission
      ⟨[⟨1, "u@x.com", "H", none, true, none, none, none, none⟩], [],
       [⟨5, "reports.view", true⟩], [], 2⟩ 1 "reports.view" = false :=
  userHasPermission_fail_closed
    ⟨[⟨1, "u@x.com", "H", none, true, none, none, none, none⟩], [],
     [⟨5, "reports.view", true⟩], [], 2⟩ 1 "reports.view" (Or.inl (by decide))

/-- The permission table exactly as `initializeDefaultRolesAndPermissions`
creates it on an empty database: `Object.values(PERMISSIONS)` in declaration
order, ids assigned by autoincrement. -/
def seededPermissions : List Permission :=
  [⟨1, "users.read", true⟩, ⟨2, "users.create", true⟩, ⟨3, "users.update", true⟩,
   ⟨4, "users.delete", true⟩, ⟨5, "users.manage", true⟩,
   ⟨6, "roles.read", true⟩, ⟨7, "roles.create", true⟩, ⟨8, "roles.update", true⟩,
   ⟨9, "roles.delete", true⟩, ⟨10, "roles.manage", true⟩,
   ⟨11, "permissions.read", true⟩, ⟨12, "permissions.manage", true⟩,
   ⟨13, "admin.access", true⟩]

/-- The database after the seed script runs on an empty database, plus one
user U (id 1) assigned the seeded `admin` role: the admin role grants
exactly `DEFAULT_ROLE_PERMISSIONS.admin` — `admin.access` (13),
`users.manage` (5), `roles.manage` (10), `permissions.manage` (12) — and
the `user` role grants `users.read` (1). -/
def seededAdminState : DB :=
  ⟨[⟨1, "admin@example.com", "H", some "Administrator", true, some 1, none, none, none⟩],
   [⟨1, "admin", some "Administrator role with full access", true⟩,
    ⟨2, "user", some "Standard user role with basic permissions", true⟩],
   seededPermissions,
   [⟨1, 13⟩, ⟨1, 5⟩, ⟨1, 10⟩, ⟨1, 12⟩, ⟨2, 1⟩], 2⟩

/-- Counterexample to claim C4: for a user holding the seeded `admin` role,
`userHasAnyPermission(U, ["users.create", "nonexistent.perm"])` is `false`,
not `true` as claimed — `users.create` is not granted to the admin role
(only the aggregate `users.manage` is, and names are opaque), and
`nonexistent.perm` does not exist. -/
theorem admin_any_permission_counterexample :
    userHasAnyPermission seededAdminState 1 ["users.create", "nonexistent.perm"] = false := by
  decide

/-- Claim C4 as amended: with no aggregate-to-granular expansion, *both*
checks on `["users.create", "nonexistent.perm"]` are `false` for the seeded
admin user, while the four aggregate names the admin role actually grants
all check `true` — confirming names are opaque strings. -/
theorem admin_no_permission_expansion :
    userHasAnyPermission seededAdminState 1 ["users.create", "nonexistent.perm"] = false ∧
    userHasAllPermissions seededAdminState 1 ["users.create", "nonexistent.perm"] = false ∧
    userHasAllPermissions seededAdminState 1
      ["admin.access", "users.manage", "roles.manage", "permissions.manage"] = true ∧
    RoleService.userHasPermission seededAdminState 1 "users.create" = false ∧
    RoleService.userHasPermission seededAdminState 1 "users.manage" = true := by
  decide

/-- Soft-deleting a role changes no permission-check outcome: the resolution
reads only the users, role ids, role-permission rows and permission rows,
never the role's `isActive` flag. -/
theorem userRoleOf_delete (s : DB) (rid uid : Nat) :
    userRoleOf (RoleRepository.delete s rid) uid =
      (userRoleOf s uid).map
        (fun x => if x.id == rid then { x with isActive := false } else x) := by
  have husers : (RoleRepository.delete s rid).users = s.users := rfl
  have hroles : (RoleRepository.delete s rid).roles = s.roles.map
      (fun x => if x.id == rid then { x with isActive := false } else x) := rfl
  unfold userRoleOf
  rw [husers]
  cases hu : s.users.find? (fun u => u.id == uid) with
  | none => rfl
  | some u =>
    simp only [Option.some_bind]
    cases hrid : u.roleId with
    | none => rfl
    | some rdi =>
      simp only [Option.some_bind]
      rw [hroles]
      exact find_map_eq_of_pred_invariant s.roles (fun x => x.id == rdi)
        (fun x => if x.id == rid then { x with isActive := false } else x)
        (by intro a; by_cases ha : (a.id == rid) = true <;> simp [ha])

theorem userHasPermission_delete_invariant (s : DB) (rid uid : Nat) (pname : String) :
    RoleService.userHasPermission (RoleRepository.delete s rid) uid pname =
      RoleService.userHasPermission s uid pname := by
  unfold RoleService.userHasPermission
  rw [userRoleOf_delete]
  cases hr : userRoleOf s uid with
  | none => rfl
  | some role =>
    simp only [Option.map_some']
    have hid : (if role.id == rid then { role with isActive := false } else role).id
        = role.id := by
      by_cases ha : (role.id == rid) = true <;> simp [ha]
    rw [hid]
    rfl

/-- Claim C10: `deleteRole` on a non-system role is a soft delete.  The
users, permissions and role-permission tables are untouched, the role table
changes only by flipping that role's `isActive` flag to `false`, and every
permission check resolves exactly as before — a user still holding the
deleted role keeps resolving against its permission set, because the
resolution never consults the role's `isActive` flag. -/
theorem deleteRole_soft_delete_frame (s : DB) (rid : Nat) (r : Role)
    (hfind : s.roles.find? (fun x => x.id == rid) = some r)
    (hadmin : r.name ≠ "admin") (huser : r.name ≠ "user") :
    ∃ s', RoleService.deleteRole s rid = (s', Except.ok ()) ∧
      s'.users = s.users ∧
      s'.permissions = s.permissions ∧
      s'.rolePermissions = s.rolePermissions ∧
      s'.roles = s.roles.map
        (fun x => if x.id == rid then { x with isActive := false } else x) ∧
      ∀ uid pname, RoleService.userHasPermission s' uid pname =
        RoleService.userHasPermission s uid pname := by
  refine ⟨RoleRepository.delete s rid, ?_, rfl, rfl, rfl, rfl, ?_⟩
  · unfold RoleService.deleteRole
    rw [hfind]
    simp [ROLE_NAMES.ADMIN, ROLE_NAMES.USER, hadmin, huser]
  · intro uid pname
    exact userHasPermission_delete_invariant s rid uid pname

/-- A concrete database with a non-system role `editor` (id 3), one user
holding it, and one permission joined to it. -/
def softDeleteState : DB :=
  ⟨[⟨1, "e@x.com", "H", none, true, some 3, none, none, none⟩],
   [⟨3, "editor", none, true⟩],
   [⟨7, "posts.edit", true⟩],
   [⟨3, 7⟩], 2⟩

/-- Witness for C10 at the concrete `editor` role. -/
theorem deleteRole_soft_delete_frame_witness :
    ∃ s', RoleService.deleteRole softDeleteState 3 = (s', Except.ok ()) ∧
      s'.users = softDeleteState.users ∧
      s'.permissions = softDeleteState.permissions ∧
      s'.rolePermissions = softDeleteState.rolePermissions ∧
      s'.roles = softDeleteState.roles.map
        (fun x => if x.id == 3 then { x with isActive := false } else x) ∧
      ∀ uid pname, RoleService.userHasPermission s' uid pname =
        RoleService.userHasPermission softDeleteState uid pname :=
  deleteRole_soft_delete_frame softDeleteState 3 ⟨3, "editor", none, true⟩
    (by decide) (by decide) (by decide)

/-- A database in which the role with id 2 — the hardcoded default of
`AuthRepository.create` — is named `guest`, not `user`. -/
def guestRoleState : DB := ⟨[], [⟨2, "guest", none, true⟩], [], [], 1⟩

/-- Counterexample to claim C8: registration without an explicit role
assigns the hardcoded role id 2 whatever its name is; when role 2 is named
`guest`, the registered user's role is `guest`, not `user`. -/
theorem register_default_role_counterexample :
    (AuthService.register (fun p => p) "k" 0 guestRoleState "a@x.com" "Str0ng!Pw" none).2
      = Except.ok ⟨⟨1, "a@x.com", none, "guest"⟩,
          ⟨⟨1, "a@x.com", "guest"⟩, 900, true, "k"⟩,
          ⟨⟨1, "a@x.com", "guest"⟩, 604800, true, "k"⟩⟩ ∧
    ("guest" : String) ≠ "user" := by
  constructor
  · rfl
  · decide

/-- Closed evaluation backing the C8 counterexample: the user row created by
the registration above carries `roleId = some 2`, and role 2 in that
database is named `guest`. -/
theorem register_default_role_counterexample_state :
    ((AuthService.register (fun p => p) "k" 0 guestRoleState "a@x.com" "Str0ng!Pw"
        none).1.users.map (fun u => (u.email, u.roleId))) = [("a@x.com", some 2)] := by
  rfl

/-- Claim C8 as amended: every user created through `register` (which never
passes an explicit role) is assigned role id 2 — never null, so exactly one
role per registered user — and *when* the role table holds the seeded
`user` role at id 2, the assigned role is the one named `user`. -/
theorem register_assigns_default_role (hash : String → String) (secret : String)
    (now : Nat) (s s' : DB) (email pw : String) (name : Option String)
    (resp : AuthResponse)
    (hfresh : ∀ u ∈ s.users, u.id ≠ s.nextUserId)
    (hrole : ∃ r, s.roles.find? (fun x => x.id == 2) = some r ∧ r.name = "user")
    (hemail : (email.data.all (fun c => c.isWhitespace)) = false)
    (hstrong : (validatePasswordStrength pw 8).isValid = true)
    (hnew : s.users.any (fun u => u.email == email) = false)
    (hsucc : AuthService.register hash secret now s email pw name = (s', Except.ok resp)) :
    (∃ u, s'.users.find? (fun x => x.id == resp.user.id) = some u ∧
      u.roleId = some 2) ∧
    resp.user.role = "user" := by
  obtain ⟨r2, hr2, hr2name⟩ := hrole
  have hstrong2 : (!(validatePasswordStrength pw 8).isValid) = false := by
    rw [hstrong]; rfl
  have hfind1 :
      (s.users ++ [(⟨s.nextUserId, email, hash pw, name, true, some 2,
        none, none, none⟩ : User)]).find? (fun x => x.id == s.nextUserId)
      = some (⟨s.nextUserId, email, hash pw, name, true, some 2,
          none, none, none⟩ : User) :=
    find_append_singleton s.users _ s.nextUserId rfl hfresh
  have hblank : (("user" : String) == "") = false := by decide
  have hreg : AuthService.register hash secret now s email pw name =
      (AuthRepository.updateRefreshToken
        ⟨s.users ++ [⟨s.nextUserId, email, hash pw, name, true, some 2,
            none, none, none⟩],
         s.roles, s.permissions, s.rolePermissions, s.nextUserId + 1⟩
        s.nextUserId
        (some (generateTokens secret now ⟨s.nextUserId, email, "user"⟩).refreshToken),
       Except.ok ⟨⟨s.nextUserId, email, name, "user"⟩,
         (generateTokens secret now ⟨s.nextUserId, email, "user"⟩).accessToken,
         (generateTokens secret now ⟨s.nextUserId, email, "user"⟩).refreshToken⟩) := by
    simp only [AuthService.register, hemail, hstrong2, hnew, Bool.false_eq_true,
      if_false, AuthRepository.create, hfind1, roleNameOrDefault, Option.some_bind,
      hr2, hr2name, hblank]
  rw [hreg] at hsucc
  simp only [Prod.mk.injEq, Except.ok.injEq] at hsucc
  obtain ⟨hs2, hresp⟩ := hsucc
  subst hs2
  subst hresp
  constructor
  · show ∃ u, ((s.users ++ [(⟨s.nextUserId, email, hash pw, name, true, some 2,
        none, none, none⟩ : User)]).map (setRefreshTok s.nextUserId
          (some (generateTokens secret now
            ⟨s.nextUserId, email, "user"⟩).refreshToken))).find?
        (fun x => x.id == s.nextUserId) = some u ∧ u.roleId = some 2
    rw [find_map_eq_of_pred_invariant _ (fun x => x.id == s.nextUserId)
        (setRefreshTok s.nextUserId
          (some (generateTokens secret now ⟨s.nextUserId, email, "user"⟩).refreshToken))
        (fun a => by simp [setRefreshTok_id]),
      hfind1]
    refine ⟨_, rfl, ?_⟩
    simp [setRefreshTok]
  · rfl

/-- The role table as seeded (admin id 1, user id 2), with no users yet. -/
def c8SeededS : DB :=
  ⟨[], [⟨1, "admin", none, true⟩, ⟨2, "user", none, true⟩], [], [], 1⟩

/-- Token pair issued for the witness registration below. -/
def c8Tokens : TokenPair := generateTokens "k" 0 ⟨1, "b@x.com", "user"⟩

/-- Database state after the witness registration. -/
def c8S2 : DB :=
  AuthRepository.updateRefreshToken
    ⟨[⟨1, "b@x.com", "Str0ng!Pw", none, true, some 2, none, none, none⟩],
     [⟨1, "admin", none, true⟩, ⟨2, "user", none, true⟩], [], [], 2⟩
    1 (some c8Tokens.refreshToken)

/-- Response of the witness registration. -/
def c8Resp : AuthResponse :=
  ⟨⟨1, "b@x.com", none, "user"⟩, c8Tokens.accessToken, c8Tokens.refreshToken⟩

/-- Witness for C8 as amended: registering against the seeded role table
yields a user with `roleId = 2` and role name `user`. -/
theorem register_assigns_default_role_witness :
    (∃ u, c8S2.users.find? (fun x => x.id == c8Resp.user.id) = some u ∧
      u.roleId = some 2) ∧
    c8Resp.user.role = "user" :=
  register_assigns_default_role (fun p => p) "k" 0 c8SeededS c8S2 "b@x.com"
    "Str0ng!Pw" none c8Resp
    (fun u hu => absurd hu (List.not_mem_nil u))
    ⟨⟨2, "user", none, true⟩, by decide, rfl⟩
    (by decide) (by decide) (by decide) rfl

/-- Claim C2: when `refreshToken(rt1)` succeeds and returns a pair whose
refresh token `rt2` differs from `rt1` (rotation produced a new token), the
user row identified by `rt1`'s claims stores exactly `rt2`, and a second
`refreshToken(rt1)` against the resulting state fails with a 401 — either
because `rt1` has meanwhile expired, or because the presented token no
longer matches the stored one — leaving the state untouched. -/
theorem refreshToken_rotation (secret : String) (t1 t2 : Nat) (s s' : DB)
    (rt1 : JwtToken) (pair : TokenPair)
    (hsucc : AuthService.refreshToken secret t1 s (some rt1) = (s', Except.ok pair))
    (hrot : pair.refreshToken ≠ rt1) :
    ((s'.users.find? (fun u => u.id == rt1.payload.userId)).map
        (fun u => u.refreshToken)) = some (some pair.refreshToken) ∧
    (AuthService.refreshToken secret t2 s' (some rt1)).1 = s' ∧
    (∃ e, (AuthService.refreshToken secret t2 s' (some rt1)).2 = Except.error e ∧
      e.statusCode = HTTP_STATUS.UNAUTHORIZED) := by
  simp only [AuthService.refreshToken] at hsucc
  split at hsucc
  · simp [Prod.ext_iff] at hsucc
  next payload hv =>
    split at hsucc
    · simp [Prod.ext_iff] at hsucc
    next user hfu =>
      by_cases hact : (!user.isActive) = true
      · rw [if_pos hact] at hsucc
        simp [Prod.ext_iff] at hsucc
      · rw [if_neg hact] at hsucc
        by_cases hmatch : user.refreshToken ≠ some rt1
        · rw [if_pos hmatch] at hsucc
          simp [Prod.ext_iff] at hsucc
        · rw [if_neg hmatch] at hsucc
          simp only [Prod.mk.injEq, Except.ok.injEq] at hsucc
          obtain ⟨hs2, hpair⟩ := hsucc
          obtain ⟨hpayload, hwf, hsig, hexp⟩ :=
            verifyToken_ok_inversion secret t1 rt1 payload hv
          subst hpayload
          rw [hpair] at hs2
          rw [← hs2]
          have husers :
              (AuthRepository.updateRefreshToken s user.id
                (some pair.refreshToken)).users
              = s.users.map (setRefreshTok user.id (some pair.refreshToken)) := rfl
          have hfind2 :
              (AuthRepository.updateRefreshToken s user.id
                  (some pair.refreshToken)).users.find?
                (fun u => u.id == rt1.payload.userId)
              = some (setRefreshTok user.id (some pair.refreshToken) user) := by
            rw [husers, find_map_eq_of_pred_invariant _ _ _
              (fun a => by simp [setRefreshTok_id]), hfu, Option.map_some']
          have hu2act : (setRefreshTok user.id (some pair.refreshToken) user).isActive
              = true := by
            have : user.isActive = true := by simpa using hact
            unfold setRefreshTok
            by_cases h : (user.id == user.id) = true <;> simp [h, this]
          have hu2rt : (setRefreshTok user.id (some pair.refreshToken) user).refreshToken
              = some pair.refreshToken := by
            unfold setRefreshTok
            simp
          refine ⟨?_, ?_⟩
          · rw [hfind2, Option.map_some', hu2rt]
          · have hv2 : verifyToken secret t2 rt1 = Except.error "Token expired" ∨
                verifyToken secret t2 rt1 = Except.ok rt1.payload := by
              unfold verifyToken jwtVerify
              by_cases h2 : rt1.exp ≤ t2 <;> simp [hwf, hsig, h2]
            rcases hv2 with hv2 | hv2
            · have hcall :
                  AuthService.refreshToken secret t2
                      (AuthRepository.updateRefreshToken s user.id
                        (some pair.refreshToken)) (some rt1)
                  = (AuthRepository.updateRefreshToken s user.id
                      (some pair.refreshToken),
                     Except.error ⟨"Token de refresco inválido o expirado",
                       HTTP_STATUS.UNAUTHORIZED⟩) := by
                simp only [AuthService.refreshToken, hv2]
              rw [hcall]
              exact ⟨rfl, ⟨_, rfl, rfl⟩⟩
            · have hcall :
                  AuthService.refreshToken secret t2
                      (AuthRepository.updateRefreshToken s user.id
                        (some pair.refreshToken)) (some rt1)
                  = (AuthRepository.updateRefreshToken s user.id
                      (some pair.refreshToken),
                     Except.error ⟨"Token de refresco inválido",
                       HTTP_STATUS.UNAUTHORIZED⟩) := by
                simp only [AuthService.refreshToken, hv2, hfind2, hu2act, hu2rt,
                  Bool.not_true, Bool.false_eq_true, if_false]
                rw [if_pos (by simpa using hrot)]
              rw [hcall]
              exact ⟨rfl, ⟨_, rfl, rfl⟩⟩

/-- The refresh token presented in the C2 witness scenario. -/
def c2Rt1 : JwtToken := ⟨⟨1, "a@x.com", "user"⟩, 100, true, "k"⟩

/-- One-user database whose stored refresh token is `c2Rt1`. -/
def c2S : DB :=
  ⟨[⟨1, "a@x.com", "H", none, true, none, some c2Rt1, none, none⟩], [], [], [], 2⟩

/-- The pair issued by the witness refresh call at time 0. -/
def c2Pair : TokenPair := generateTokens "k" 0 ⟨1, "a@x.com", "user"⟩

/-- State after the witness refresh call. -/
def c2S2 : DB := AuthRepository.updateRefreshToken c2S 1 (some c2Pair.refreshToken)

/-- Witness for C2: the concrete first refresh at time 0 succeeds and
rotates the stored token; replaying `c2Rt1` at time 50 fails with a 401. -/
theorem refreshToken_rotation_witness :
    ((c2S2.users.find? (fun u => u.id == c2Rt1.payload.userId)).map
        (fun u => u.refreshToken)) = some (some c2Pair.refreshToken) ∧
    (AuthService.refreshToken "k" 50 c2S2 (some c2Rt1)).1 = c2S2 ∧
    (∃ e, (AuthService.refreshToken "k" 50 c2S2 (some c2Rt1)).2 = Except.error e ∧
      e.statusCode = HTTP_STATUS.UNAUTHORIZED) :=
  refreshToken_rotation "k" 0 50 c2S c2S2 c2Rt1 c2Pair rfl (by decide)
